import Mathlib

/-!
Shallow embedding of `src/pvc4000.py` (Posifa PVC4000 vacuum-sensor driver)
and verification of the specification's claims about its frame-acquisition
and decoding protocol.

Conventions of the embedding:
* Python bytes are naturals (callers supply values in 0..255; the claims
  that need the bound carry it as a hypothesis or use concrete bytes).
* A Python function that can raise is embedded as `Except PyErr _`;
  `Except.error` is a raised exception, `Except.ok` a normal return.
* Python `None` results are `Option.none`.
* Python floats produced by the conversion formula are rationals `ℚ`
  (the formula `13.5 * (count - 10000) + 10000` is exact in binary
  floating point for the 16-bit count range, so `ℚ` is faithful).
-/

/-- Exceptions the embedded driver code can raise: `TypeError` (subscripting
an object with no `__getitem__`), `struct.error` (unpacking a buffer whose
size does not match the format), and a transport-level read failure used by
the acquisition runner when the stub has no frame to deliver. -/
inductive PyErr where
  | typeError
  | structError
  | transportError
  deriving DecidableEq

/-- The fixed 6-byte response frame read into `self._buffer`
(`bytearray(6)`, `pvc4000.py` line 51): byte 0 is the checksum byte,
bytes 1..5 the rest of the frame. -/
structure Frame where
  b0 : ℕ
  b1 : ℕ
  b2 : ℕ
  b3 : ℕ
  b4 : ℕ
  b5 : ℕ
  deriving DecidableEq

/-- Embeds `PVC4000.check_sum` (`pvc4000.py` lines 135-148):
`return (-(sum(data) % 256) + 0xff) + 0x01 == csum`.
Python `%` on a non-negative sum agrees with `Int.emod`.  Note the source
does not reduce the left-hand side modulo 256 again. -/
def check_sum (csum : ℕ) (data : List ℕ) : Bool :=
  decide (((-(((data.sum : ℤ)) % 256) + 0xff) + 0x01 : ℤ) = (csum : ℤ))

/-- Embeds `struct.unpack('>H', bs)[0]`: a big-endian unsigned 16-bit read.
`struct.unpack` raises `struct.error` unless the buffer is exactly 2 bytes. -/
def unpack_H_be : List ℕ → Except PyErr ℕ
  | [a, b] => .ok (256 * a + b)
  | _ => .error .structError

/-- Embeds `struct.unpack('>HH', bs)`: two big-endian unsigned 16-bit reads.
`struct.unpack` raises `struct.error` unless the buffer is exactly 4 bytes. -/
def unpack_HH_be : List ℕ → Except PyErr (ℕ × ℕ)
  | [a, b, c, d] => .ok (256 * a + b, 256 * c + d)
  | _ => .error .structError

/-- Embeds the inline count-to-pressure conversion that appears at
`pvc4000.py` lines 76-79 and 130-133:
`if count <= 10_000: return count else: return 13.5 * (count - 10_000) + 10_000`. -/
def convert (count : ℕ) : ℚ :=
  if count ≤ 10000 then (count : ℚ) else 13.5 * ((count : ℚ) - 10000) + 10000

/-- Definition following the words of spec §4.3, for comparison with
`convert`: "If `raw_count <= 10000`: pressure = `raw_count` ... Else:
pressure = `13.5 * (raw_count - 10000) + 10000`." -/
def convert_spec (raw_count : ℕ) : ℚ :=
  if raw_count ≤ 10000 then (raw_count : ℚ)
  else 13.5 * ((raw_count : ℚ) - 10000) + 10000

/-- Embeds the expression `self[1:5]` at `pvc4000.py` line 121: the class
`PVC4000` defines no `__getitem__`, so subscripting the instance raises
`TypeError` before `check_sum` is ever entered. -/
def pvc_getitem_slice : Except PyErr (List ℕ) := .error .typeError

/-- Embeds `PVC4000.read_raw_data` (`pvc4000.py` lines 54-79) as a function
of the frame delivered by the single `i2c.readinto(self._buffer)`:
validate `check_sum(self._buffer[0], self._buffer[1:6])` (five payload
bytes); on failure return `(None, None)`; on success unpack
`count = struct.unpack('>H', self._buffer[1:3])[0]`, then
`temp = struct.unpack('>HH', self._buffer[1:3])[0]` (a 2-byte slice against
a 4-byte format), then return the converted pressure with `temp`. -/
def read_raw_data (frame : Frame) : Except PyErr (Option (ℚ × ℕ)) :=
  if check_sum frame.b0 [frame.b1, frame.b2, frame.b3, frame.b4, frame.b5] then
    match unpack_H_be [frame.b1, frame.b2] with
    | .error e => .error e
    | .ok count =>
      match unpack_HH_be [frame.b1, frame.b2] with
      | .error e => .error e
      | .ok tpair => .ok (some (convert count, tpair.1))
  else
    .ok none

/-- Embeds the `PVC4000.pressure` property (`pvc4000.py` lines 107-133) as a
function of the frame delivered by the single `i2c.readinto(self._buffer)`:
evaluate `check_sum(self._buffer[0], self[1:5])` — the second argument
subscripts the instance itself and raises `TypeError`; had it produced a
payload, a failed checksum would return `None` and a passing one would
unpack the count from `self._buffer[1:3]` and convert it. -/
def pressure (frame : Frame) : Except PyErr (Option ℚ) :=
  match pvc_getitem_slice with
  | .error e => .error e
  | .ok payload =>
    if check_sum frame.b0 payload then
      match unpack_H_be [frame.b1, frame.b2] with
      | .error e => .error e
      | .ok count => .ok (some (convert count))
    else
      .ok none

/-- Runs the `pressure` accessor against a transport stub that delivers the
given frames on successive `readinto` calls, returning the number of read
attempts performed together with the accessor's result.  The source body
performs exactly one `i2c.readinto(self._buffer)` (line 119) with no loop
around it, so exactly one frame is consumed; an empty stub makes that one
read fail at the transport level. -/
def pressure_acquire (stub : List Frame) : ℕ × Except PyErr (Option ℚ) :=
  match stub with
  | [] => (1, .error .transportError)
  | f :: _ => (1, pressure f)

/-- Helper: `read_raw_data` either raises `struct.error` (checksum passed,
then `'>HH'` meets a 2-byte slice) or returns `(None, None)` (checksum
failed); the success branch is unreachable. -/
theorem read_raw_data_eq (f : Frame) :
    read_raw_data f =
      if check_sum f.b0 [f.b1, f.b2, f.b3, f.b4, f.b5] then
        Except.error PyErr.structError
      else Except.ok none := by
  unfold read_raw_data
  cases hcs : check_sum f.b0 [f.b1, f.b2, f.b3, f.b4, f.b5]
  · simp [hcs]
  · simp [hcs]
    rfl

/-- Helper: the `pressure` accessor evaluates `self[1:5]` before anything
else in its validation step, so it raises `TypeError` on every frame. -/
theorem pressure_eq (f : Frame) :
    pressure f = Except.error PyErr.typeError := rfl

/-- C1: the validator compares `csum` against `256 - (sum % 256)` without
reducing modulo 256, so a payload whose byte sum is a multiple of 256 never
validates against checksum byte 0 (the comparison is against 256, out of
byte range), although the claim's formula `(256 - (sum mod 256)) mod 256`
equals 0 there. -/
theorem checksum_zero_sum_frame_rejected :
    check_sum 0 [0, 0, 0, 0] = false ∧
      (0 : ℤ) = (256 - ((([0, 0, 0, 0] : List ℕ).sum : ℤ) % 256)) % 256 := by
  decide

/-- C2: against a transport stub delivering one checksum-invalid frame and
then a checksum-valid frame, the `pressure` accessor performs exactly one
read attempt and raises `TypeError`; there is no retry loop, no attempt
bound of 20, and no `AcquisitionFailed` result anywhere in the code. -/
theorem pressure_acquire_no_retry :
    pressure_acquire [⟨0, 0, 0, 0, 0, 0⟩, ⟨255, 1, 0, 0, 0, 0⟩] =
      (1, Except.error PyErr.typeError) := rfl

/-- C3: the inline count-to-pressure conversion is exactly the two-segment
piecewise-linear function of spec §4.3, with `convert 10000 = 10000` and
`convert 10001 = 10013.5` (continuity at the breakpoint). -/
theorem convert_piecewise (c : ℕ) (hc : c ≤ 65535) :
    convert c = convert_spec c ∧ convert 10000 = 10000 ∧
      convert 10001 = 10013.5 := by
  refine ⟨rfl, by norm_num [convert], by norm_num [convert]⟩

/-- Witness for C3 at the concrete raw count 10001. -/
theorem convert_piecewise_witness :
    (10001 : ℕ) ≤ 65535 ∧
      (convert 10001 = convert_spec 10001 ∧ convert 10000 = 10000 ∧
        convert 10001 = 10013.5) :=
  ⟨by norm_num, convert_piecewise 10001 (by norm_num)⟩

/-- C4 counterexample: the all-zero frame fails checksum validation (under
the code's 5-byte payload and under the claimed 4-byte payload alike), yet
the `pressure` accessor raises `TypeError` instead of returning the `None`
failure signal — the claim that every reading operation returns an explicit
failure signal on a checksum-failing frame is false for `pressure`. -/
theorem pressure_checksum_failure_raises :
    check_sum 0 [0, 0, 0, 0] = false ∧ check_sum 0 [0, 0, 0, 0, 0] = false ∧
      pressure ⟨0, 0, 0, 0, 0, 0⟩ = Except.error PyErr.typeError :=
  ⟨by decide, by decide, rfl⟩

/-- C4 amended: on a frame failing `read_raw_data`'s checksum validation,
`read_raw_data` returns `(None, None)` — distinct from every decoded
`(pressure, temperature)` pair — and the `pressure` accessor raises
`TypeError` before returning any value; checksum failure never produces a
result indistinguishable from valid data. -/
theorem checksum_failure_explicit_signal (f : Frame)
    (h : check_sum f.b0 [f.b1, f.b2, f.b3, f.b4, f.b5] = false) :
    read_raw_data f = Except.ok none ∧
      pressure f = Except.error PyErr.typeError := by
  refine ⟨?_, rfl⟩
  rw [read_raw_data_eq, h]
  rfl

/-- Witness for C4 amended at the all-zero frame. -/
theorem checksum_failure_explicit_signal_witness :
    check_sum 0 [0, 0, 0, 0, 0] = false ∧
      (read_raw_data ⟨0, 0, 0, 0, 0, 0⟩ = Except.ok none ∧
        pressure ⟨0, 0, 0, 0, 0, 0⟩ = Except.error PyErr.typeError) :=
  ⟨by decide, checksum_failure_explicit_signal ⟨0, 0, 0, 0, 0, 0⟩ (by decide)⟩

/-- C5 counterexample: on the frame `[254, 1, 0, 0, 0, 1]` the four payload
bytes at offsets 1-4 do not match checksum byte 254 (their sum is 1, so a
4-byte validation expects 255), hence under the claim the frame must be
rejected with `(None, None)`; instead `read_raw_data` accepts the checksum —
byte 5 enters the sum, `254 = 256 - 2` — and proceeds past validation to
raise `struct.error`. -/
theorem read_raw_data_checksum_uses_byte5 :
    check_sum 254 [1, 0, 0, 0] = false ∧
      read_raw_data ⟨254, 1, 0, 0, 0, 1⟩ = Except.error PyErr.structError :=
  ⟨by decide, rfl⟩

/-- C5 amended: `read_raw_data` validates the checksum over the five bytes
at frame offsets 1-5 against the checksum byte at offset 0 (it returns the
`(None, None)` failure exactly when that 5-byte validation fails), and the
`pressure` accessor raises `TypeError` before performing any checksum
validation. -/
theorem checksum_payload_bytes (f : Frame) :
    (read_raw_data f = Except.ok none ↔
      check_sum f.b0 [f.b1, f.b2, f.b3, f.b4, f.b5] = false) ∧
      pressure f = Except.error PyErr.typeError := by
  refine ⟨?_, rfl⟩
  rw [read_raw_data_eq]
  cases hcs : check_sum f.b0 [f.b1, f.b2, f.b3, f.b4, f.b5] <;> simp [hcs]

/-- C6: of the spec's two example pairs, only the second validates:
payload `[0x01, 0x00, 0x00, 0x00]` with checksum `0xFF` passes, but payload
`[0x00, 0x00, 0x00, 0x00]` with checksum `0x00` is rejected because the
validator compares 0 against the unreduced value 256. -/
theorem checksum_spec_examples :
    check_sum 255 [1, 0, 0, 0] = true ∧ check_sum 0 [0, 0, 0, 0] = false := by
  decide

/-- C7: the frame `[255, 1, 0, 0, 0, 0]` carries the correct checksum for
its payload (under the claimed 4-byte payload and the code's 5-byte payload
alike) and should decode to `convert 256 = 256`, but both entry points of
the pipeline raise instead of returning a successful reading:
`read_raw_data` hits `struct.error` unpacking `'>HH'` from the 2-byte slice,
and `pressure` hits `TypeError` at `self[1:5]`. -/
theorem roundtrip_pipeline_raises :
    check_sum 255 [1, 0, 0, 0] = true ∧ check_sum 255 [1, 0, 0, 0, 0] = true ∧
      read_raw_data ⟨255, 1, 0, 0, 0, 0⟩ = Except.error PyErr.structError ∧
      pressure ⟨255, 1, 0, 0, 0, 0⟩ = Except.error PyErr.typeError ∧
      convert (256 * 1 + 0) = 256 :=
  ⟨by decide, by decide, rfl, rfl, by norm_num [convert]⟩

/-- C8: the count-to-pressure conversion is monotonically non-decreasing
over the full 16-bit domain. -/
theorem convert_monotone (a b : ℕ) (hab : a ≤ b) (hb : b ≤ 65535) :
    convert a ≤ convert b := by
  unfold convert
  rcases le_or_lt b 10000 with hb10 | hb10
  · rw [if_pos (le_trans hab hb10), if_pos hb10]
    exact_mod_cast hab
  · rw [if_neg (not_le.mpr hb10)]
    have hbq : (10000 : ℚ) < (b : ℚ) := by exact_mod_cast hb10
    rcases le_or_lt a 10000 with ha10 | ha10
    · rw [if_pos ha10]
      have haq : (a : ℚ) ≤ 10000 := by exact_mod_cast ha10
      nlinarith
    · rw [if_neg (not_le.mpr ha10)]
      have habq : (a : ℚ) ≤ (b : ℚ) := by exact_mod_cast hab
      nlinarith

/-- Witness for C8 at the endpoints of the 16-bit domain. -/
theorem convert_monotone_witness :
    (0 : ℕ) ≤ 65535 ∧ (65535 : ℕ) ≤ 65535 ∧ convert 0 ≤ convert 65535 :=
  ⟨by norm_num, by norm_num,
    convert_monotone 0 65535 (by norm_num) (by norm_num)⟩

/-- C9: for every frame content, the `pressure` accessor raises `TypeError`
(it evaluates `self[1:5]`, subscripting the `PVC4000` instance, which
defines no `__getitem__`), so it never returns a pressure value or the
`None` failure signal. -/
theorem pressure_always_raises (f : Frame) :
    pressure f = Except.error PyErr.typeError := rfl

/-- C10: whenever a frame passes `read_raw_data`'s checksum validation the
operation raises `struct.error` (format `'>HH'` needs 4 bytes, the slice
`buffer[1:3]` has 2), so `read_raw_data` never returns a
`(pressure, temperature)` pair. -/
theorem read_raw_data_never_returns_pair (f : Frame) :
    (check_sum f.b0 [f.b1, f.b2, f.b3, f.b4, f.b5] = true →
      read_raw_data f = Except.error PyErr.structError) ∧
      ∀ p : ℚ, ∀ t : ℕ, read_raw_data f ≠ Except.ok (some (p, t)) := by
  constructor
  · intro h
    rw [read_raw_data_eq, h]
    rfl
  · intro p t
    rw [read_raw_data_eq]
    cases hcs : check_sum f.b0 [f.b1, f.b2, f.b3, f.b4, f.b5] <;> simp

/-- Witness for C10 at a frame whose checksum passes validation. -/
theorem read_raw_data_never_returns_pair_witness :
    check_sum 255 [1, 0, 0, 0, 0] = true ∧
      read_raw_data ⟨255, 1, 0, 0, 0, 0⟩ = Except.error PyErr.structError :=
  ⟨by decide, (read_raw_data_never_returns_pair ⟨255, 1, 0, 0, 0, 0⟩).1 (by decide)⟩
